import Mathlib

/-!
Shallow embedding of `src/SingleCalc.py` (a Streamlit voltage-drop
calculator).  Numeric quantities (volts, amperes, ohms, feet, percent)
are modelled as rationals: the Python code computes with the magnitudes
of `units` quantities, and the unit wrappers (`units.input`,
`units.load`, `units.unitdisplay`) only tag or render those magnitudes.
A Python function that can raise is modelled with `Option` / `Except`:
`none` / `Except.error` stands for the raised exception.
-/

namespace SingleCalc

/-- Embeds `voltage_at_load(v_in, r, i)` (SingleCalc.py lines 38-55):
`v_drop = i * r`; `v_load = v_in - v_drop`;
`v_pct = (1 - v_load / v_in) * 100 if v_drop != 0 else 0`;
returns `(v_load, v_pct)`.  When the first branch of the conditional is
taken with `v_in = 0`, Python raises `ZeroDivisionError`; that outcome
is `none` here. -/
def voltage_at_load (v_in r i : ℚ) : Option (ℚ × ℚ) :=
  let v_drop := i * r
  let v_load := v_in - v_drop
  if v_drop ≠ 0 then
    if v_in = 0 then none
    else some (v_load, (1 - v_load / v_in) * 100)
  else some (v_load, 0)

/-- Embeds the expression on SingleCalc.py line 143:
`total_resistance = 2 * wire_length * wire_resistivity / units.load("1000 ft/kft") / number_of_conductors`
(the unit constant has magnitude 1000).
The conductor count is the value of a `st.number_input` with
`min_value=1, step=1` (line 127), hence a natural number. -/
def total_resistance (number_of_conductors : ℕ) (wire_length wire_resistivity : ℚ) : ℚ :=
  2 * wire_length * wire_resistivity / 1000 / number_of_conductors

/-- A pandas DataFrame, reduced to what the code inspects: its column
labels and its rows of cell texts. -/
structure DataFrame where
  columns : List String
  rows : List (List String)
deriving DecidableEq, Repr

/-- The possible states of the CSV source handed to `parse_csv`:
absent file (`FileNotFoundError`), empty file (`EmptyDataError`),
unparsable content (`ParserError`), or a well-formed table. -/
inductive CSVSource where
  | missing
  | emptyData
  | malformed
  | wellFormed (df : DataFrame)
deriving DecidableEq, Repr

/-- Embeds `parse_csv(file_path)` (SingleCalc.py lines 57-74): on
success it returns the parsed DataFrame; each `except` arm prints an
error message and falls off the end of the function, so Python returns
`None` — modelled as `none`. -/
def parse_csv : CSVSource → Option DataFrame
  | CSVSource.wellFormed df => some df
  | _ => none

/-- Embeds what `run()` does with the result of
`parse_csv("wire_resistance.csv")` (line 93): the very next uses of
`wire_df` are `wire_df.to_csv(index=False)` (line 107),
`wire_df.columns` (line 118) and `wire_df['awg']` (line 130), all of
which raise `AttributeError`/`TypeError` when `wire_df` is `None`.
So `run` either proceeds with the parsed table or raises. -/
def run_wire_table (src : CSVSource) : Except String DataFrame :=
  match parse_csv src with
  | some df => Except.ok df
  | none => Except.error "AttributeError: NoneType object has no attribute to_csv"

/-- Embeds the upload handler (SingleCalc.py lines 116-123):
`vals = [oheader in upload_df.columns for oheader in wire_df.columns]`;
if `not all(vals)` a warning is shown and `wire_df` is kept, otherwise
`wire_df = upload_df`.  Returns the resulting wire table and whether
the upload was accepted. -/
def upload_wire_table (wire_df upload_df : DataFrame) : DataFrame × Bool :=
  if ∀ c ∈ wire_df.columns, c ∈ upload_df.columns then (upload_df, true)
  else (wire_df, false)

/-- The column headers of the session record table
(SingleCalc.py lines 155-156). -/
def voltage_record_headers : List String :=
  ["Source Voltage", "Load Current", "Number of Conductors", "Conductor Size",
   "Conductor Length", "Load Voltage", "Percent Drop"]

/-- One row of the record table: the snapshot built on lines 159-161,
`dict(zip(voltage_record_headers, voltage_record_values))`. -/
structure RecordRow where
  source_voltage : ℚ
  load_current : ℚ
  number_of_conductors : ℕ
  conductor_size : String
  conductor_length : ℚ
  load_voltage : ℚ
  percent_drop : ℚ
deriving DecidableEq, Repr

/-- The in-memory record table kept in `st.session_state`: column
headers plus the appended rows, in insertion order. -/
structure RecordTable where
  headers : List String
  rows : List RecordRow
deriving DecidableEq, Repr

/-- Embeds the "Add to Record" handler (SingleCalc.py lines 164-167):
`pd.concat([st.session_state[key], pd.DataFrame([new_voltage_record])], ignore_index=True)`
appends the one new row after all existing rows. -/
def add_to_record (t : RecordTable) (r : RecordRow) : RecordTable :=
  { t with rows := t.rows ++ [r] }

/-- Embeds `clear_data(session_state_ref, sst_key, headers)`
(SingleCalc.py lines 82-83): the stored table is replaced by
`pd.DataFrame(columns=headers)`, an empty table, whatever it held. -/
def clear_data (_t : RecordTable) : RecordTable :=
  { headers := voltage_record_headers, rows := [] }

/-! ## Theorems settling the claims -/

/-- Claim C1 (amended): whenever `v_in` is nonzero or the drop `i * r`
is zero — exactly the inputs on which the function returns at all —
`voltage_at_load v_in r i` returns the load voltage `v_in - i * r` and
a percent drop that is 0 when the drop is zero and
`(1 - load / v_in) * 100` otherwise, and that percent drop is 0 exactly
when the drop is zero. -/
theorem C1_voltage_at_load_formula (v r i : ℚ) (h : v ≠ 0 ∨ i * r = 0) :
    voltage_at_load v r i =
      some (v - i * r, if i * r = 0 then 0 else (1 - (v - i * r) / v) * 100)
    ∧ ((if i * r = 0 then (0 : ℚ) else (1 - (v - i * r) / v) * 100) = 0 ↔ i * r = 0) := by
  by_cases hd : i * r = 0
  · constructor
    · simp [voltage_at_load, hd]
    · simp [hd]
  · have hv : v ≠ 0 := h.resolve_right hd
    constructor
    · simp [voltage_at_load, hd, hv]
    · rw [if_neg hd]
      have key : (1 - (v - i * r) / v) * 100 = i * r / v * 100 := by field_simp
      rw [key]
      constructor
      · intro hp
        rcases mul_eq_zero.mp hp with h1 | h2
        · rcases div_eq_zero_iff.mp h1 with h3 | h4
          · exact h3
          · exact absurd h4 hv
        · norm_num at h2
      · intro h3
        exact absurd h3 hd

/-- Claim C1, witness: the amended theorem applied at
`v_in = 2, r = 1, i = 1`. -/
theorem C1_witness :
    voltage_at_load 2 1 1 =
      some (2 - 1 * 1, if (1 * 1 : ℚ) = 0 then 0 else (1 - (2 - 1 * 1) / 2) * 100) :=
  (C1_voltage_at_load_formula 2 1 1 (Or.inl (by norm_num))).1

/-- Claim C1, counterexample to the claim as stated: at
`v_in = 0, r = 1, i = 1` the drop is nonzero, Python raises
`ZeroDivisionError`, and nothing at all is returned — in particular no
pair `(v_in - i * r, pct)`. -/
theorem C1_counterexample : voltage_at_load 0 1 1 = none := by
  norm_num [voltage_at_load]

/-- Claim C2: for every conductor count `n ≥ 1`, length `L` and
per-length resistance `R`, the displayed total resistance equals
`2 * L * R / 1000 / n`, equivalently the specification formula
`2 * n⁻¹ * L * R / 1000`. -/
theorem C2_total_resistance_formula (n : ℕ) (L R : ℚ) (h : 1 ≤ n) :
    total_resistance n L R = 2 * L * R / 1000 / (n : ℚ)
    ∧ total_resistance n L R = 2 * ((n : ℚ))⁻¹ * L * R / 1000 := by
  refine ⟨rfl, ?_⟩
  unfold total_resistance
  ring

/-- Claim C2, witness: the theorem applied at
`n = 1, L = 300, R = 3.07`. -/
theorem C2_witness :
    total_resistance 1 300 (307/100) = 2 * 300 * (307/100) / 1000 / ((1 : ℕ) : ℚ) :=
  (C2_total_resistance_formula 1 300 (307/100) (le_refl 1)).1

/-- Claim C3: on each failing source (missing file, empty file,
unparsable content) `parse_csv` swallows the exception and returns
`None`, and `run()` then dereferences that `None` and raises — it does
NOT continue with an empty table, contradicting the claim. -/
theorem C3_parse_failure_crashes_run :
    parse_csv CSVSource.missing = none
    ∧ parse_csv CSVSource.emptyData = none
    ∧ parse_csv CSVSource.malformed = none
    ∧ run_wire_table CSVSource.missing =
        Except.error "AttributeError: NoneType object has no attribute to_csv"
    ∧ run_wire_table CSVSource.emptyData =
        Except.error "AttributeError: NoneType object has no attribute to_csv"
    ∧ run_wire_table CSVSource.malformed =
        Except.error "AttributeError: NoneType object has no attribute to_csv" :=
  ⟨rfl, rfl, rfl, rfl, rfl, rfl⟩

/-- Claim C4: an upload missing at least one required column (a column
of the current wire table) is rejected and the prior table is retained;
the table is replaced (and the upload accepted) exactly when every
required column is present. -/
theorem C4_upload_rejected_when_columns_missing (wire_df upload_df : DataFrame) :
    (¬ (∀ c ∈ wire_df.columns, c ∈ upload_df.columns) →
        upload_wire_table wire_df upload_df = (wire_df, false))
    ∧ ((∀ c ∈ wire_df.columns, c ∈ upload_df.columns) →
        upload_wire_table wire_df upload_df = (upload_df, true)) := by
  refine ⟨fun h => ?_, fun h => ?_⟩ <;> unfold upload_wire_table
  · rw [if_neg h]
  · rw [if_pos h]

/-- Claim C4, witness: an upload lacking the required column `r_25c`
is rejected and the prior table kept. -/
theorem C4_witness :
    upload_wire_table ⟨["awg", "r_25c"], []⟩ ⟨["awg"], []⟩ = (⟨["awg", "r_25c"], []⟩, false) :=
  (C4_upload_rejected_when_columns_missing ⟨["awg", "r_25c"], []⟩ ⟨["awg"], []⟩).1 (by decide)

/-- Claim C5 (amended): for fixed length and gauge with positive
product `L * R > 0` (in particular positive length and positive
resistance-per-length), the total resistance is strictly decreasing in
the conductor count. -/
theorem C5_strictly_decreasing_in_conductors (n1 n2 : ℕ) (L R : ℚ)
    (h1 : 1 ≤ n1) (h12 : n1 < n2) (hLR : 0 < L * R) :
    total_resistance n2 L R < total_resistance n1 L R := by
  unfold total_resistance
  have h2 : (0 : ℚ) < 2 * L * R := by
    have := mul_pos (by norm_num : (0 : ℚ) < 2) hLR
    linarith [this]
  have hc : (0 : ℚ) < 2 * L * R / 1000 := by
    exact div_pos h2 (by norm_num)
  have hn1 : (0 : ℚ) < (n1 : ℚ) := by
    exact_mod_cast Nat.lt_of_lt_of_le Nat.zero_lt_one h1
  have hn12 : (n1 : ℚ) < (n2 : ℚ) := by exact_mod_cast h12
  exact div_lt_div_of_pos_left hc hn1 hn12

/-- Claim C5, witness: the amended theorem applied at
`n1 = 1, n2 = 2, L = 300, R = 3.07`. -/
theorem C5_witness :
    total_resistance 2 300 (307/100) < total_resistance 1 300 (307/100) :=
  C5_strictly_decreasing_in_conductors 1 2 300 (307/100) (le_refl 1) (by norm_num) (by norm_num)

/-- Claim C5, counterexample to the claim as stated: at wire length 0
the total resistance is 0 for every conductor count, so going from 1 to
2 conductors does not strictly decrease it. -/
theorem C5_counterexample :
    total_resistance 2 0 (307/100) = 0 ∧ total_resistance 1 0 (307/100) = 0 := by
  constructor <;> norm_num [total_resistance]

/-- Claim C6 (amended): for `conductor_count = 1, length = 300,
resistance_per_length = 3.07` the total resistance is exactly
`1.842` ohm, and `voltage_at_load 24 1.842 1` returns load voltage
exactly `22.158` and percent drop exactly `7.675` (≈ 7.68, not 7.66). -/
theorem C6_concrete_pipeline :
    total_resistance 1 300 (307/100) = 1842/1000
    ∧ voltage_at_load 24 (1842/1000) 1 = some (22158/1000, 7675/1000) := by
  constructor
  · norm_num [total_resistance]
  · norm_num [voltage_at_load]

/-- Claim C6, counterexample to the stated figure `pct ≈ 7.66`: the
computed percent drop is exactly `307/40 = 7.675`, which differs from
`7.66` by `0.015`, more than half a unit in the last printed decimal
place (`0.005`), so it does not round or truncate-agree to `7.66`
(two-decimal rounding gives `7.68`). -/
theorem C6_counterexample :
    voltage_at_load 24 (total_resistance 1 300 (307/100)) 1 = some (11079/500, 307/40)
    ∧ |(307/40 : ℚ) - 766/100| = 15/1000
    ∧ (5 : ℚ)/1000 < 15/1000 := by
  refine ⟨?_, ?_, by norm_num⟩
  · norm_num [voltage_at_load, total_resistance]
  · rw [abs_of_nonneg (by norm_num)]
    norm_num

/-- Claim C7: appending any list of record rows to any prior record
table and then clearing yields the empty record table (clearing resets
to empty regardless of the prior contents). -/
theorem C7_clear_after_appends (t : RecordTable) (rs : List RecordRow) :
    clear_data (List.foldl add_to_record t rs) =
      { headers := voltage_record_headers, rows := [] }
    ∧ (clear_data (List.foldl add_to_record t rs)).rows = [] :=
  ⟨rfl, rfl⟩

/-- Claim C8: appending a row adds exactly that row at the end: the new
row list is the old one with the row appended, its length grows by one,
every previously stored row is still at its original index, the new row
sits at the old length, and the headers are untouched.  Nothing
deduplicates (an equal row is appended all the same) and no capacity
bound exists. -/
theorem C8_append_exactly_one_row (t : RecordTable) (r : RecordRow) :
    (add_to_record t r).rows = t.rows ++ [r]
    ∧ (add_to_record t r).rows.length = t.rows.length + 1
    ∧ (∀ k, k < t.rows.length → (add_to_record t r).rows[k]? = t.rows[k]?)
    ∧ (add_to_record t r).rows[t.rows.length]? = some r
    ∧ (add_to_record t r).headers = t.headers := by
  refine ⟨rfl, by simp [add_to_record], fun k hk => ?_, ?_, rfl⟩
  · simp [add_to_record, List.getElem?_append_left hk]
  · simp [add_to_record]

/-- Claim C8, witness: appending a row equal to the one already present
still appends it (no deduplication). -/
theorem C8_witness :
    (add_to_record ⟨voltage_record_headers, [⟨24, 1, 1, "10", 300, 0, 0⟩]⟩
        ⟨24, 1, 1, "10", 300, 0, 0⟩).rows
      = [⟨24, 1, 1, "10", 300, 0, 0⟩, ⟨24, 1, 1, "10", 300, 0, 0⟩] := by
  have h := (C8_append_exactly_one_row ⟨voltage_record_headers, [⟨24, 1, 1, "10", 300, 0, 0⟩]⟩
    ⟨24, 1, 1, "10", 300, 0, 0⟩).1
  simpa using h

/-- Claim C9: `voltage_at_load` applies no clamping: for nonzero source
voltage it returns exactly the formula values unmodified; whenever the
drop exceeds the source voltage the returned load voltage is negative;
and for positive source voltage with drop exceeding it the percent drop
exceeds 100 and is returned as is. -/
theorem C9_no_clamping (v r i : ℚ) (hv : v ≠ 0) :
    voltage_at_load v r i =
      some (v - i * r, if i * r = 0 then 0 else (1 - (v - i * r) / v) * 100)
    ∧ (v < i * r → v - i * r < 0)
    ∧ (0 < v → v < i * r → 100 < (1 - (v - i * r) / v) * 100) := by
  refine ⟨?_, fun h => by linarith, fun hv0 h => ?_⟩
  · by_cases hd : i * r = 0
    · simp [voltage_at_load, hd]
    · simp [voltage_at_load, hd, hv]
  · have key : (1 - (v - i * r) / v) * 100 = i * r / v * 100 := by field_simp
    rw [key]
    have h1 : 1 < i * r / v := (one_lt_div hv0).mpr h
    linarith

/-- Claim C9, witness: at `v_in = 1, r = 2, i = 1` the drop (2) exceeds
the source (1): the load voltage `-1` is negative and the percent drop
`200` exceeds 100, both returned unmodified. -/
theorem C9_witness :
    voltage_at_load 1 2 1 =
      some (1 - 1 * 2, if (1 * 2 : ℚ) = 0 then 0 else (1 - (1 - 1 * 2) / 1) * 100)
    ∧ (1 : ℚ) - 1 * 2 < 0
    ∧ 100 < (1 - ((1 : ℚ) - 1 * 2) / 1) * 100 :=
  ⟨(C9_no_clamping 1 2 1 (by norm_num)).1,
   (C9_no_clamping 1 2 1 (by norm_num)).2.1 (by norm_num),
   (C9_no_clamping 1 2 1 (by norm_num)).2.2 (by norm_num) (by norm_num)⟩

/-- Claim C10: `voltage_at_load` returns a value exactly when the
source voltage is nonzero or the drop `i * r` is zero; equivalently the
division-by-zero error is reached exactly at `v_in = 0` with nonzero
drop. -/
theorem C10_total_iff_guard (v r i : ℚ) :
    (voltage_at_load v r i).isSome = true ↔ (v ≠ 0 ∨ i * r = 0) := by
  by_cases hd : i * r = 0
  · simp [voltage_at_load, hd]
  · by_cases hv : v = 0
    · simp [voltage_at_load, hd, hv]
    · simp [voltage_at_load, hd, hv]

end SingleCalc
